import Mathlib

/-!
Shallow embedding of the Bengaluru GeoInsights layer-aggregation and
cross-layer selection logic (`src/App.js`, `src/CustomSearch.js`,
`src/Widgets.js`), together with proofs about the embedded operations.

JavaScript values that matter to the verified properties are modelled
explicitly: `undefined`/missing object fields become `Option`, JS string
truthiness (empty string is falsy) is modelled by dedicated helpers, and
an expression that can throw a `TypeError` is embedded as an `Except`.
GeoJSON features are records carrying exactly the fields the code reads.
Numbers are modelled as `ℚ`.
-/

namespace GeoInsights

/-- A value stored in a feature's `__key` expando field: `SchoolLayer`
assigns numeric indices (`feature.__key = idx`), while the tree-prefixed
keys tested by `toggleLayer` would be strings. -/
inductive JsKey where
  | num (n : Nat)
  | str (s : String)
deriving DecidableEq, Repr

/-- The only runtime error relevant here: calling a method that does not
exist on the receiver (e.g. `(0).startsWith`). -/
inductive JsError where
  | typeError
deriving DecidableEq, Repr

/-- A GeoJSON feature, restricted to the fields the program reads.
`none` models an absent/undefined field. `coords` is
`feature.geometry.coordinates`, `kgisWardName` is
`feature.properties.KGISWardName`, `tagsName` is
`feature.properties.tags.name`, `propName` is `feature.properties.name`,
`treeName` is `feature.properties.TreeName`, and `key` is the `__key`
expando written by `SchoolLayer`. -/
structure Feature where
  geometryType : Option String := none
  coords : Option (List ℚ) := none
  kgisWardName : Option String := none
  tagsName : Option String := none
  propName : Option String := none
  treeName : Option String := none
  key : Option JsKey := none
deriving DecidableEq, Repr

/-- A GeoJSON FeatureCollection: the `type` tag plus the `features`
array. -/
structure FeatureCollection where
  type : String := "FeatureCollection"
  features : List Feature
deriving DecidableEq, Repr

/-- JS `a || b` for an optional string `a`: the empty string is falsy,
so it falls through to `b`. -/
def jsOrStr (a : Option String) (b : String) : String :=
  match a with
  | some s => if s.isEmpty then b else s
  | none => b

/-- Does `hay` begin with `sub`? (character-list core of
`String.prototype.startsWith`). -/
def charsLeading : List Char → List Char → Bool
  | [], _ => true
  | _ :: _, [] => false
  | a :: as, b :: bs => a == b && charsLeading as bs

/-- Does `hay` contain `sub` as a contiguous run? (character-list core of
`String.prototype.includes`). -/
def charsHaveSub (sub : List Char) : List Char → Bool
  | [] => sub.isEmpty
  | c :: rest => charsLeading sub (c :: rest) || charsHaveSub sub rest

/-- JS `s.includes(sub)`. -/
def jsIncludesStr (s sub : String) : Bool :=
  charsHaveSub sub.data s.data

/-- JS `s.toLowerCase()` (character-wise lowering). -/
def jsToLower (s : String) : String :=
  ⟨s.data.map Char.toLower⟩

/-- JS `s.trim()`: strip whitespace from both ends. -/
def jsTrim (s : String) : String :=
  ⟨((s.data.dropWhile Char.isWhitespace).reverse.dropWhile
      Char.isWhitespace).reverse⟩

/-- JS `s.startsWith(p)`. -/
def jsStartsWithStr (s p : String) : Bool :=
  charsLeading p.data s.data

/-! Section: CustomSearch (`src/CustomSearch.js`)

`CustomSearch` builds `searchableItems` from its `wardsData` and
`schoolsData` props on every render. Each item records the layer type,
the display name and a reference to the raw feature; the JS object
reference is modelled as the feature's index into the owning dataset's
`features` array (items alias raw features, they do not copy them).
The `latlng`/`bounds` map-navigation fields of an item are not modelled:
no verified property reads them. -/

/-- One entry of `searchableItems`. `featureIdx` models the aliased
object reference `item.feature`. -/
structure SearchItem where
  itemType : String
  name : String
  featureIdx : Nat
deriving DecidableEq, Repr

/-- The guard CustomSearch applies to school features:
`coords && feature.geometry.type === "Point"` (an empty coordinates
array is truthy in JS, so only presence is tested, not length). -/
def isSearchablePoint (f : Feature) : Bool :=
  f.coords.isSome && f.geometryType == some "Point"

/-- Ward entries of `searchableItems`: one per feature of `wardsData`,
named `properties?.KGISWardName || "Unnamed Ward"`. -/
def wardSearchItems (wardsData : Option FeatureCollection) : List SearchItem :=
  match wardsData with
  | none => []
  | some d =>
    d.features.enum.map fun p =>
      { itemType := "Ward"
        name := jsOrStr p.2.kgisWardName "Unnamed Ward"
        featureIdx := p.1 }

/-- School entries of `searchableItems`: Point features of
`schoolsData`, named
`properties?.tags?.name || properties?.name || "Unnamed School"`. -/
def schoolSearchItems (schoolsData : Option FeatureCollection) : List SearchItem :=
  match schoolsData with
  | none => []
  | some d =>
    (d.features.enum.filter fun p => isSearchablePoint p.2).map fun p =>
      { itemType := "School"
        name := jsOrStr p.2.tagsName (jsOrStr p.2.propName "Unnamed School")
        featureIdx := p.1 }

/-- Model of `searchableItems`: wards first, then schools, in dataset order. -/
def searchableItems (wardsData schoolsData : Option FeatureCollection) :
    List SearchItem :=
  wardSearchItems wardsData ++ schoolSearchItems schoolsData

/-- The query effect: an empty query yields `[]`; otherwise filter by
case-insensitive substring match on the name and keep the first 10. -/
def runSearchQuery (query : String) (items : List SearchItem) : List SearchItem :=
  if query.length = 0 then []
  else
    let lowerQuery := jsToLower query
    (items.filter fun item =>
      jsIncludesStr (jsToLower item.name) lowerQuery).take 10

/-- The results CustomSearch displays for a query, given its two data
props. -/
def customSearchResults (wardsData schoolsData : Option FeatureCollection)
    (query : String) : List SearchItem :=
  runSearchQuery query (searchableItems wardsData schoolsData)

set_option linter.unusedVariables false in
/-- The search as wired in `App`: App passes `wardsData`, `schoolsData`
and a `treeData` prop, but `CustomSearch`'s parameter list destructures
only `wardsData`, `schoolsData` and `onSelectFeature`, so the tree
dataset never reaches the index. -/
def appSearchResults (wardData schoolData treeData : Option FeatureCollection)
    (query : String) : List SearchItem :=
  customSearchResults wardData schoolData query

/-! Section: Sharded tree-census load (`loadTreeDataParts` in `src/App.js`)

Six part fetches are created in a loop (all in flight before the single
`await Promise.all`); each promise's `.then` chain pushes that part's
`features` into `allFeatures` on success, logs a warning for a parsed
body that is not a FeatureCollection with an array `features`, and its
`.catch` logs fetch/HTTP/JSON errors. Since every chain ends in
`.catch`, `Promise.all` waits for all six to settle. Pushes happen in
promise-completion order, each part's features contiguously, so the
final array is the concatenation of the successful parts' feature
arrays in some completion order. `setTreeData` is the sole state write
and runs once, after the `await`. -/

/-- Outcome of one part's fetch-and-parse chain. -/
inductive PartResult where
  /-- Fetch ok and body is a FeatureCollection with an array `features`. -/
  | ok (features : List Feature)
  /-- Parsed body fails the structure check; warned, contributes nothing. -/
  | invalidStructure
  /-- Network/HTTP/JSON error caught by `.catch`; contributes nothing. -/
  | fetchError
deriving DecidableEq, Repr

/-- Features a settled part contributes to `allFeatures`. -/
def partFeatures : PartResult → List Feature
  | .ok fs => fs
  | .invalidStructure => []
  | .fetchError => []

/-- The FeatureCollection `setTreeData` receives, given the parts'
outcomes listed in promise-completion order. -/
def loadTreeDataParts (completionOrder : List PartResult) : FeatureCollection :=
  { type := "FeatureCollection"
    features := (completionOrder.map partFeatures).flatten }

/-! Section: Layer dataset effects (`src/App.js`)

Each dataset lives in a `useState` cell written by one `useEffect`; the
effects are embedded as pure state-transition functions. -/

/-- The tree-data effect (deps `[layersVisibility.trees]`): hidden ⇒
`setTreeData(null)`; visible ⇒ fetch all six parts and set the merged
collection. -/
def treesEffect (visible : Bool) (partOutcomes : List PartResult) :
    Option FeatureCollection :=
  if !visible then none
  else some (loadTreeDataParts partOutcomes)

/-- The school-data effect (deps `[layersVisibility.schools]`): hidden ⇒
`setSchoolData(null)`; visible ⇒ on a successful Overpass query set the
translated collection, on a caught error only log (the previous state
cell value stays). -/
def schoolsEffect (visible : Bool) (prev : Option FeatureCollection)
    (outcome : Except Unit FeatureCollection) : Option FeatureCollection :=
  if !visible then none
  else
    match outcome with
    | .ok g => some g
    | .error _ => prev

/-- The ward-data effect: it has an empty dependency array, so it runs
exactly once on mount, reads no visibility flag, and nothing ever sets
`wardData` back to null. On success it sets the fetched collection; a
caught error only logs. -/
def wardMountEffect (outcome : Except Unit FeatureCollection)
    (prev : Option FeatureCollection) : Option FeatureCollection :=
  match outcome with
  | .ok d => some d
  | .error _ => prev

/-! Section: Visibility toggling and selection clearing (`toggleLayer`) -/

/-- The `layersVisibility` state record with its four keys. -/
structure LayersVisibility where
  ward : Bool
  schools : Bool
  trees : Bool
  dem : Bool
deriving DecidableEq, Repr

/-- The `useState` initializer:
`{ ward: false, schools: true, trees: false, dem: false }`. -/
def initialLayersVisibility : LayersVisibility :=
  { ward := false, schools := true, trees := false, dem := false }

/-- Model of `setLayersVisibility(prev => ({...prev, [layerId]: !prev[layerId]}))`
for the four known layer ids. -/
def flipLayer (layerId : String) (v : LayersVisibility) : LayersVisibility :=
  if layerId == "ward" then { v with ward := !v.ward }
  else if layerId == "schools" then { v with schools := !v.schools }
  else if layerId == "trees" then { v with trees := !v.trees }
  else if layerId == "dem" then { v with dem := !v.dem }
  else v

/-- JS truthiness of an optional string (`undefined` and `""` falsy). -/
def truthyStrOpt : Option String → Bool
  | none => false
  | some s => !s.isEmpty

/-- JS truthiness of the optional boolean produced by an `?.` chain
(`undefined` falsy). -/
def jsTruthyOptBool : Option Bool → Bool
  | none => false
  | some b => b

/-- Evaluation of `__key?.startsWith('tree-')`: an absent key
short-circuits to `undefined`; a string key answers the test; a numeric
key has no `startsWith` method, so the call throws a `TypeError`. -/
def keyStartsWithTree : Option JsKey → Except JsError (Option Bool)
  | none => .ok none
  | some (.str s) => .ok (some (jsStartsWithStr s "tree-"))
  | some (.num _) => .error .typeError

/-- The popup-clearing condition of `toggleLayer`, with JS `&&`/`||`
short-circuit order:
`(layerId === "ward" && openPopupFeature?.properties?.KGISWardName) ||`
`(layerId === "schools" && openPopupFeature?.geometry?.type === "Point"`
` && !openPopupFeature.__key?.startsWith('tree-'))`. -/
def clearGuard (layerId : String) (opf : Option Feature) :
    Except JsError Bool :=
  if layerId == "ward" && truthyStrOpt (opf.bind Feature.kgisWardName) then
    .ok true
  else if layerId == "schools"
      && (opf.bind Feature.geometryType == some "Point") then
    match keyStartsWithTree (opf.bind Feature.key) with
    | .error e => .error e
    | .ok r => .ok (!(jsTruthyOptBool r))
  else
    .ok false

/-- The slice of App state `toggleLayer` touches. -/
structure AppSelectionState where
  layersVisibility : LayersVisibility
  openPopupFeature : Option Feature
deriving DecidableEq, Repr

/-- Model of `toggleLayer(layerId)`: flip the visibility entry, then clear
`openPopupFeature` when the guard holds; a `TypeError` raised while
evaluating the guard aborts the handler. -/
def toggleLayer (layerId : String) (s : AppSelectionState) :
    Except JsError AppSelectionState :=
  let vis := flipLayer layerId s.layersVisibility
  match clearGuard layerId s.openPopupFeature with
  | .error e => .error e
  | .ok true => .ok { layersVisibility := vis, openPopupFeature := none }
  | .ok false => .ok { layersVisibility := vis, openPopupFeature := s.openPopupFeature }

/-! Section: SchoolLayer rendering (`src/App.js`)

`schoolData.features.map((feature, idx) => ...)` returns early for a
feature without a 2-element Point geometry and otherwise executes
`feature.__key = idx` — an in-place mutation of the raw feature object.
The features array is the shared heap here: a reference to a feature is
its index, search items alias features by that reference, and rendering
is a function from the array to the updated array. -/

/-- The render guard:
`!(!coords || feature.geometry?.type !== "Point" || coords.length !== 2)`. -/
def validRenderPoint (f : Feature) : Bool :=
  match f.coords with
  | none => false
  | some cs => f.geometryType == some "Point" && cs.length == 2

/-- Rendering the school layer: every feature passing the render guard
gets `__key` set to its index in `schoolData.features`. -/
def renderSchoolLayer (features : List Feature) : List Feature :=
  features.enum.map fun p =>
    if validRenderPoint p.2 then { p.2 with key := some (.num p.1) } else p.2

/-- Dereferencing a search item's aliased `feature` reference against
the (possibly mutated) features array. -/
def resolveItem (store : List Feature) (item : SearchItem) : Option Feature :=
  store.get? item.featureIdx

/-! Section: DEM raster normalization (`loadGeoRasters` in `src/App.js`)

The first pass fetches and parses each tile, collecting
`georaster.mins[0]` into `allMins` and `georaster.maxs[0]` into
`allMaxs` for every successfully loaded tile; a tile that fails to
fetch or parse is caught, logged and skipped. A successfully parsed
tile is modelled by its declared band minimum/maximum (the source's
`typeof === 'number'` guard is reflected by typing them as `ℚ`). After
the loop, if nothing loaded the function returns without rendering;
otherwise `globalMin`/`globalMax` are `Math.min`/`Math.max` over the
collected values and every tile gets a `pixelValuesToColorFn` closure
that captures only these globals. -/

/-- A successfully loaded and parsed georaster tile, reduced to its
declared single-band range. -/
structure LoadedGeoraster where
  declaredMin : ℚ
  declaredMax : ℚ
deriving DecidableEq, Repr

/-- Model of `Math.min(...xs)` for the nonempty lists the code guards for
(`[]` never reaches it; the 0 default is unreachable). -/
def jsMathMinList : List ℚ → ℚ
  | [] => 0
  | x :: xs => xs.foldl min x

/-- Model of `Math.max(...xs)` for the nonempty lists the code guards for. -/
def jsMathMaxList : List ℚ → ℚ
  | [] => 0
  | x :: xs => xs.foldl max x

/-- The per-pixel color closure: `none` models an
undefined/null/NaN band value; values outside the ±9999 sentinel band
render as no-data; otherwise normalize by the captured global range,
scale to 8-bit grayscale with `Math.floor` and clamp to `[0, 255]`. -/
def pixelValuesToColorFn (globalMin effectiveGlobalRange : ℚ)
    (pixelValue : Option ℚ) : Option String :=
  match pixelValue with
  | none => none
  | some v =>
    if v < -9999 ∨ v > 9999 then none
    else
      let normalizedValue := (v - globalMin) / effectiveGlobalRange
      let shade := ⌊normalizedValue * 255⌋
      let clampedShade := max 0 (min 255 shade)
      some ("rgb(" ++ toString clampedShade ++ ", " ++ toString clampedShade
        ++ ", " ++ toString clampedShade ++ ")")

/-- Second pass of `loadGeoRasters`: the color function handed to each
tile's `GeoRasterLayer`, given the successfully loaded tiles. -/
def loadGeoRasters (tiles : List LoadedGeoraster) :
    List (Option ℚ → Option String) :=
  let allMins := tiles.map LoadedGeoraster.declaredMin
  let allMaxs := tiles.map LoadedGeoraster.declaredMax
  if tiles.isEmpty then []
  else
    let globalMin := jsMathMinList allMins
    let globalMax := jsMathMaxList allMaxs
    let globalRange := globalMax - globalMin
    let effectiveGlobalRange := if globalRange = 0 then 1 else globalRange
    tiles.map fun _ => pixelValuesToColorFn globalMin effectiveGlobalRange

/-! Section: Bookmarks (`BookmarksWidget` in `src/App.js`)

Bookmarks are persisted under the `localStorage` key `mapBookmarks` via
`JSON.stringify` and read back once on mount via `JSON.parse` inside a
`try`/`catch` that leaves the state `[]` on any failure.
`JSON.parse(JSON.stringify(x))` is the identity on finite numbers,
strings and arrays/objects of them, so serialization is embedded at the
JSON-value level: the store maps keys to JSON values, and the
stringify/parse pair is the encode/decode pair below. -/

/-- JSON values (numbers as `ℚ`, which `stringify`/`parse` round-trip
exactly for the finite doubles stored here). -/
inductive Json where
  | null
  | bool (b : Bool)
  | num (q : ℚ)
  | str (s : String)
  | arr (elems : List Json)
  | obj (fields : List (String × Json))

/-- One saved bookmark: `{ id: Date.now(), name, center: [lat, lng],
zoom }`. -/
structure Bookmark where
  id : ℚ
  name : String
  center : ℚ × ℚ
  zoom : ℚ
deriving DecidableEq, Repr

/-- Encoding (`JSON.stringify`) of one bookmark, at the JSON-value level. -/
def encodeBookmark (b : Bookmark) : Json :=
  .obj [("id", .num b.id), ("name", .str b.name),
        ("center", .arr [.num b.center.1, .num b.center.2]),
        ("zoom", .num b.zoom)]

/-- Field lookup in a JSON object (also used for the key-value store). -/
def jsonField (fields : List (String × Json)) (k : String) : Option Json :=
  match fields with
  | [] => none
  | (k', v) :: rest => if k' == k then some v else jsonField rest k

/-- Decoding (`JSON.parse`) of one bookmark, at the JSON-value level; a value not
shaped like a stored bookmark is a parse failure. -/
def decodeBookmark : Json → Option Bookmark
  | .obj fields =>
    match jsonField fields "id", jsonField fields "name",
        jsonField fields "center", jsonField fields "zoom" with
    | some (.num i), some (.str n), some (.arr [.num la, .num lo]),
        some (.num z) => some { id := i, name := n, center := (la, lo), zoom := z }
    | _, _, _, _ => none
  | _ => none

/-- Encoding of the whole bookmark list. -/
def encodeBookmarks (bms : List Bookmark) : Json :=
  .arr (bms.map encodeBookmark)

/-- Element-wise decoding of a stored bookmark array. -/
def decodeBookmarkList : List Json → Option (List Bookmark)
  | [] => some []
  | j :: rest =>
    match decodeBookmark j, decodeBookmarkList rest with
    | some b, some bs => some (b :: bs)
    | _, _ => none

/-- Decoding of the stored bookmark list. -/
def decodeBookmarks : Json → Option (List Bookmark)
  | .arr elems => decodeBookmarkList elems
  | _ => none

/-- The `localStorage` key-value store, at JSON-value granularity. -/
def LocalStorage : Type := List (String × Json)

/-- Model of `localStorage.setItem(k, v)`. -/
def setItem (store : LocalStorage) (k : String) (v : Json) : LocalStorage :=
  (k, v) :: store

/-- Model of `localStorage.getItem(k)`. -/
def getItem (store : LocalStorage) (k : String) : Option Json :=
  jsonField store k

/-- The save effect (deps `[bookmarks]`):
`localStorage.setItem('mapBookmarks', JSON.stringify(bookmarks))`. -/
def persistBookmarks (store : LocalStorage) (bms : List Bookmark) :
    LocalStorage :=
  setItem store "mapBookmarks" (encodeBookmarks bms)

/-- The mount effect: read `mapBookmarks` and set the state when a
stored value exists and parses; a missing key or caught parse error
leaves the initial `[]`. -/
def loadStoredBookmarks (store : LocalStorage) : List Bookmark :=
  match getItem store "mapBookmarks" with
  | none => []
  | some j =>
    match decodeBookmarks j with
    | some bms => bms
    | none => []

/-- Model of `saveCurrentViewAsBookmark`: a blank (whitespace-only) name
input is rejected with a warning; otherwise append
`{ id: Date.now(), name: name.trim(), center, zoom }`. -/
def saveCurrentViewAsBookmark (newBookmarkName : String)
    (currentCenter : ℚ × ℚ) (currentZoom : ℚ) (now : ℚ)
    (prev : List Bookmark) : List Bookmark :=
  if (jsTrim newBookmarkName).isEmpty then prev
  else
    prev ++ [{ id := now, name := jsTrim newBookmarkName,
               center := currentCenter, zoom := currentZoom }]

/-! Section: Helper lemmas -/

/-- Folding `min` over a list never exceeds the initial accumulator. -/
lemma foldl_min_le_init (l : List ℚ) (a : ℚ) : l.foldl min a ≤ a := by
  induction l generalizing a with
  | nil => exact le_refl a
  | cons x xs ih => exact le_trans (ih (min a x)) (min_le_left a x)

/-- Folding `min` over a list never exceeds any member. -/
lemma foldl_min_le_mem (l : List ℚ) (a m : ℚ) (hm : m ∈ l) :
    l.foldl min a ≤ m := by
  induction l generalizing a with
  | nil => cases hm
  | cons x xs ih =>
    rcases List.mem_cons.mp hm with rfl | h
    · exact le_trans (foldl_min_le_init xs (min a m)) (min_le_right a m)
    · exact ih (min a x) h

/-- Folding `min` yields the accumulator or a member. -/
lemma foldl_min_mem (l : List ℚ) (a : ℚ) :
    l.foldl min a = a ∨ l.foldl min a ∈ l := by
  induction l generalizing a with
  | nil => exact Or.inl rfl
  | cons x xs ih =>
    rcases ih (min a x) with h | h
    · rcases le_total a x with hax | hxa
      · left; rw [List.foldl_cons, h, min_eq_left hax]
      · right; rw [List.foldl_cons, h, min_eq_right hxa]
        exact List.mem_cons_self x xs
    · right; exact List.mem_cons_of_mem x h

/-- Folding `max` over a list is at least the initial accumulator. -/
lemma init_le_foldl_max (l : List ℚ) (a : ℚ) : a ≤ l.foldl max a := by
  induction l generalizing a with
  | nil => exact le_refl a
  | cons x xs ih => exact le_trans (le_max_left a x) (ih (max a x))

/-- Folding `max` over a list is at least any member. -/
lemma mem_le_foldl_max (l : List ℚ) (a m : ℚ) (hm : m ∈ l) :
    m ≤ l.foldl max a := by
  induction l generalizing a with
  | nil => cases hm
  | cons x xs ih =>
    rcases List.mem_cons.mp hm with rfl | h
    · exact le_trans (le_max_right a m) (init_le_foldl_max xs (max a m))
    · exact ih (max a x) h

/-- Folding `max` yields the accumulator or a member. -/
lemma foldl_max_mem (l : List ℚ) (a : ℚ) :
    l.foldl max a = a ∨ l.foldl max a ∈ l := by
  induction l generalizing a with
  | nil => exact Or.inl rfl
  | cons x xs ih =>
    rcases ih (max a x) with h | h
    · rcases le_total a x with hax | hxa
      · right; rw [List.foldl_cons, h, max_eq_right hax]
        exact List.mem_cons_self x xs
      · left; rw [List.foldl_cons, h, max_eq_left hxa]
    · right; exact List.mem_cons_of_mem x h

/-- The modelled `Math.min` spread is a lower bound of its arguments. -/
lemma jsMathMinList_le (xs : List ℚ) (m : ℚ) (hm : m ∈ xs) :
    jsMathMinList xs ≤ m := by
  cases xs with
  | nil => cases hm
  | cons x rest =>
    rcases List.mem_cons.mp hm with rfl | h
    · exact foldl_min_le_init rest m
    · exact foldl_min_le_mem rest x m h

/-- The modelled `Math.max` spread is an upper bound of its arguments. -/
lemma le_jsMathMaxList (xs : List ℚ) (m : ℚ) (hm : m ∈ xs) :
    m ≤ jsMathMaxList xs := by
  cases xs with
  | nil => cases hm
  | cons x rest =>
    rcases List.mem_cons.mp hm with rfl | h
    · exact init_le_foldl_max rest m
    · exact mem_le_foldl_max rest x m h

/-- On a nonempty list, the modelled `Math.min` is attained by a member. -/
lemma jsMathMinList_mem (xs : List ℚ) (h : xs ≠ []) : jsMathMinList xs ∈ xs := by
  cases xs with
  | nil => exact absurd rfl h
  | cons x rest =>
    rcases foldl_min_mem rest x with he | he
    · rw [jsMathMinList, he]; exact List.mem_cons_self x rest
    · exact List.mem_cons_of_mem x he

/-- On a nonempty list, the modelled `Math.max` is attained by a member. -/
lemma jsMathMaxList_mem (xs : List ℚ) (h : xs ≠ []) : jsMathMaxList xs ∈ xs := by
  cases xs with
  | nil => exact absurd rfl h
  | cons x rest =>
    rcases foldl_max_mem rest x with he | he
    · rw [jsMathMaxList, he]; exact List.mem_cons_self x rest
    · exact List.mem_cons_of_mem x he

/-- Decoding inverts encoding on a list of bookmarks. -/
lemma decodeBookmarkList_encode (bms : List Bookmark) :
    decodeBookmarkList (bms.map encodeBookmark) = some bms := by
  induction bms with
  | nil => rfl
  | cons b rest ih =>
    have hb : decodeBookmark (encodeBookmark b) = some b := rfl
    simp [decodeBookmarkList, hb, ih]

/-- Pointwise description of rendering the school layer: the feature at
index `i` gets `__key := i` exactly when it passes the render guard. -/
lemma renderSchoolLayer_get? (features : List Feature) (i : Nat) :
    (renderSchoolLayer features).get? i
      = (features.get? i).map fun f =>
          if validRenderPoint f then { f with key := some (.num i) } else f := by
  simp only [renderSchoolLayer, List.get?_eq_getElem?, List.getElem?_map,
    List.getElem?_enum]
  cases features[i]? <;> rfl

/-- A feature passing the render guard has Point geometry. -/
lemma validRenderPoint_geometry {f : Feature} (hv : validRenderPoint f = true) :
    f.geometryType = some "Point" := by
  unfold validRenderPoint at hv
  cases hc : f.coords with
  | none => rw [hc] at hv; cases hv
  | some cs =>
    rw [hc] at hv
    rcases Bool.and_eq_true_iff.mp hv with ⟨h1, _⟩
    exact beq_iff_eq.mp h1

/-! Section: Claim theorems -/

/-- C1. Sharded tree-census load: whatever order the six concurrent part
fetches settle in, the merged FeatureCollection contains exactly the
features of the parts that fetched and parsed successfully — here parts
1, 2, 4, 5, 6, with part 3 failing either way — with exact
multiplicities (no duplication), and a failed or malformed part
contributes nothing. -/
theorem claim_C1 (r1 r2 r4 r5 r6 : List Feature) (p3 : PartResult)
    (hp3 : p3 = PartResult.invalidStructure ∨ p3 = PartResult.fetchError)
    (completionOrder : List PartResult)
    (hperm : completionOrder.Perm
      [PartResult.ok r1, PartResult.ok r2, p3, PartResult.ok r4,
       PartResult.ok r5, PartResult.ok r6]) :
    (loadTreeDataParts completionOrder).type = "FeatureCollection" ∧
    (loadTreeDataParts completionOrder).features.Perm
      (r1 ++ r2 ++ r4 ++ r5 ++ r6) ∧
    ∀ f : Feature, (loadTreeDataParts completionOrder).features.count f
      = (r1 ++ r2 ++ r4 ++ r5 ++ r6).count f := by
  have hflat : (loadTreeDataParts completionOrder).features.Perm
      (r1 ++ r2 ++ r4 ++ r5 ++ r6) := by
    have hmap := hperm.map partFeatures
    have hj := hmap.flatten
    rcases hp3 with rfl | rfl <;>
      simpa [loadTreeDataParts, partFeatures, List.append_assoc] using hj
  exact ⟨rfl, hflat, fun f => hflat.count_eq f⟩

/-- Witness for C1: part 3 of 6 fails with a fetch error, the other
parts complete out of order, and the merged features are exactly those
of parts 1, 2, 4, 5, 6. -/
theorem claim_C1_witness :
    ([PartResult.fetchError,
      PartResult.ok [{ treeName := some "b" }],
      PartResult.ok [{ treeName := some "a" }],
      PartResult.ok [],
      PartResult.ok [{ treeName := some "d" }],
      PartResult.ok [{ treeName := some "c" }]].Perm
      [PartResult.ok [{ treeName := some "a" }],
       PartResult.ok [{ treeName := some "b" }], PartResult.fetchError,
       PartResult.ok [], PartResult.ok [{ treeName := some "c" }],
       PartResult.ok [{ treeName := some "d" }]]) ∧
    (loadTreeDataParts
      [PartResult.fetchError,
       PartResult.ok [{ treeName := some "b" }],
       PartResult.ok [{ treeName := some "a" }],
       PartResult.ok [],
       PartResult.ok [{ treeName := some "d" }],
       PartResult.ok [{ treeName := some "c" }]]).features.Perm
      ([{ treeName := some "a" }] ++ [{ treeName := some "b" }] ++ []
        ++ [{ treeName := some "c" }] ++ [{ treeName := some "d" }]) := by
  refine ⟨by decide, ?_⟩
  exact (claim_C1 [{ treeName := some "a" }] [{ treeName := some "b" }] []
    [{ treeName := some "c" }] [{ treeName := some "d" }]
    PartResult.fetchError (Or.inr rfl) _ (by decide)).2.1

/-- C2. Raster normalization is global, not per-tile: every tile
receives one and the same pixel-value-to-color function, built from the
global minimum/maximum of the declared per-band ranges over all
successfully loaded tiles (`jsMathMinList`/`jsMathMaxList` compute
exactly the minimum and maximum of those lists); for the two tiles with
declared ranges [0,100] and [50,200] the globals are 0 and 200, and a
pixel value of 100 in either tile maps to the same color. -/
theorem claim_C2 :
    (∀ (tiles : List LoadedGeoraster) (f g : Option ℚ → Option String),
      f ∈ loadGeoRasters tiles → g ∈ loadGeoRasters tiles → f = g) ∧
    (∀ tiles : List LoadedGeoraster, tiles ≠ [] →
      (∀ t ∈ tiles,
        jsMathMinList (tiles.map LoadedGeoraster.declaredMin) ≤ t.declaredMin ∧
        t.declaredMax ≤ jsMathMaxList (tiles.map LoadedGeoraster.declaredMax)) ∧
      jsMathMinList (tiles.map LoadedGeoraster.declaredMin)
        ∈ tiles.map LoadedGeoraster.declaredMin ∧
      jsMathMaxList (tiles.map LoadedGeoraster.declaredMax)
        ∈ tiles.map LoadedGeoraster.declaredMax) ∧
    (jsMathMinList [(0 : ℚ), 50] = 0 ∧ jsMathMaxList [(100 : ℚ), 200] = 200) ∧
    (∀ f ∈ loadGeoRasters [⟨0, 100⟩, ⟨50, 200⟩],
      f (some 100) = some "rgb(127, 127, 127)") := by
  refine ⟨?_, ?_, ⟨by norm_num [jsMathMinList], by norm_num [jsMathMaxList]⟩, ?_⟩
  · intro tiles f g hf hg
    cases tiles with
    | nil => simp [loadGeoRasters] at hf
    | cons t rest =>
      simp only [loadGeoRasters, List.isEmpty_cons, if_neg] at hf hg
      rcases List.mem_map.mp hf with ⟨_, _, rfl⟩
      rcases List.mem_map.mp hg with ⟨_, _, rfl⟩
      rfl
  · intro tiles htiles
    refine ⟨fun t ht => ⟨?_, ?_⟩, ?_, ?_⟩
    · exact jsMathMinList_le _ _ (List.mem_map_of_mem _ ht)
    · exact le_jsMathMaxList _ _ (List.mem_map_of_mem _ ht)
    · exact jsMathMinList_mem _ (by simpa using htiles)
    · exact jsMathMaxList_mem _ (by simpa using htiles)
  · intro f hf
    have : f = pixelValuesToColorFn 0 200 := by
      simp only [loadGeoRasters] at hf
      norm_num [jsMathMinList, jsMathMaxList] at hf
      exact hf
    subst this
    simp only [pixelValuesToColorFn]
    norm_num
    decide

/-- Witness for C2: the shared color function of the two example tiles
maps pixel value 100 to the concrete color rgb(127, 127, 127). -/
theorem claim_C2_witness :
    (pixelValuesToColorFn 0 200
      ∈ loadGeoRasters [⟨0, 100⟩, ⟨50, 200⟩]) ∧
    pixelValuesToColorFn 0 200 (some 100) = some "rgb(127, 127, 127)" := by
  have hmem : pixelValuesToColorFn 0 200
      ∈ loadGeoRasters [⟨0, 100⟩, ⟨50, 200⟩] := by
    norm_num [loadGeoRasters, jsMathMinList, jsMathMaxList]
  exact ⟨hmem, claim_C2.2.2.2 _ hmem⟩

/-- C3 counterexample: with a loaded tree-census dataset containing a
Point feature named "Banyan" (whose display name contains the query,
second conjunct) and no ward or school data, the App-wired search for
"banyan" returns nothing — tree features are not searchable, refuting
the claim that every loaded layer's features are eligible. -/
theorem claim_C3_counterexample :
    appSearchResults none none
      (some { features := [{ geometryType := some "Point",
                             coords := some [77, 13],
                             treeName := some "Banyan" }] })
      "banyan" = [] ∧
    jsIncludesStr (jsToLower "Banyan") (jsToLower "banyan") = true :=
  ⟨rfl, by decide⟩

/-- C3 amended: the search index is built from ward and school
descriptors only; the `treeData` prop App passes is ignored by
`CustomSearch`, so results never depend on the tree dataset. -/
theorem claim_C3_amended (w s t t' : Option FeatureCollection) (q : String) :
    appSearchResults w s t q = appSearchResults w s t' q ∧
    appSearchResults w s t q
      = runSearchQuery q (wardSearchItems w ++ schoolSearchItems s) :=
  ⟨rfl, rfl⟩

/-- C4 (code bug). The claim says toggling the schools layer with a
selected school point clears the selection to null; on the reachable
state where the selected school feature carries the numeric `__key`
index that `SchoolLayer` assigned, `toggleLayer("schools")` instead
evaluates `(0).startsWith('tree-')` and throws a `TypeError`. -/
theorem claim_C4_bug_eval :
    toggleLayer "schools"
      { layersVisibility := initialLayersVisibility,
        openPopupFeature := some { geometryType := some "Point",
                                   coords := some [77.6, 12.97],
                                   tagsName := some "Govt School",
                                   key := some (JsKey.num 0) } }
      = .error .typeError := rfl

/-- C5 counterexample: the ward layer is initially hidden
(`ward: false`), yet the mount-time ward fetch effect runs regardless
of visibility and leaves the ward dataset non-null — a hidden layer
holding a dataset, refuting drop-on-hide/lazy-load-on-show for every
layer. -/
theorem claim_C5_counterexample :
    initialLayersVisibility.ward = false ∧
    wardMountEffect
      (.ok { features := [{ kgisWardName := some "Shanthala Nagar" }] }) none
      = some { features := [{ kgisWardName := some "Shanthala Nagar" }] } :=
  ⟨rfl, rfl⟩

/-- C5 amended: the tree and school layers do follow
lazy-load-on-show/drop-on-hide — visibility false forces their dataset
to null, visibility true loads it — while the ward dataset is fetched
once on mount irrespective of visibility (and is never dropped: no code
path clears it). -/
theorem claim_C5_amended (prev : Option FeatureCollection)
    (parts : List PartResult) (outcome : Except Unit FeatureCollection)
    (fc : FeatureCollection) :
    treesEffect false parts = none ∧
    schoolsEffect false prev outcome = none ∧
    treesEffect true parts = some (loadTreeDataParts parts) ∧
    schoolsEffect true prev (.ok fc) = some fc ∧
    wardMountEffect (.ok fc) none = some fc :=
  ⟨rfl, rfl, rfl, rfl, rfl⟩

/-- C6 counterexample: the query " " consists only of whitespace
(first conjunct), yet searching it over a ward named "A B" returns that
ward — only the length-zero query is special-cased, refuting the claim
that whitespace-only queries return zero results. -/
theorem claim_C6_counterexample :
    (" ".data.all Char.isWhitespace = true) ∧
    customSearchResults
      (some { features := [{ kgisWardName := some "A B" }] }) none " "
      = [{ itemType := "Ward", name := "A B", featureIdx := 0 }] :=
  ⟨by decide, by decide⟩

/-- C6 amended: an empty query always yields zero results, but a
nonempty whitespace-only query is not special-cased: it is an ordinary
case-insensitive substring query and can match names containing that
whitespace. -/
theorem claim_C6_amended (w s : Option FeatureCollection) (q : String)
    (items : List SearchItem) (hq : q.length ≠ 0) :
    customSearchResults w s "" = [] ∧
    runSearchQuery q items
      = (items.filter fun item =>
          jsIncludesStr (jsToLower item.name) (jsToLower q)).take 10 := by
  refine ⟨rfl, ?_⟩
  rw [runSearchQuery, if_neg hq]

/-- Witness for C6 (amended): the whitespace query " " over a ward
named "A B" goes through the ordinary filter-and-truncate path. -/
theorem claim_C6_witness :
    (" ".length ≠ 0) ∧
    runSearchQuery " " [{ itemType := "Ward", name := "A B", featureIdx := 0 }]
      = ([{ itemType := "Ward", name := "A B", featureIdx := 0 }].filter
          fun item =>
            jsIncludesStr (jsToLower item.name) (jsToLower " ")).take 10 :=
  ⟨by decide, (claim_C6_amended none none " "
    [{ itemType := "Ward", name := "A B", featureIdx := 0 }] (by decide)).2⟩

/-- C7. For every query and datasets the result list has at most 10
entries, and for a nonempty query it is exactly the first 10 of the
matching ward items followed by the matching school items, each in
dataset order — aggregation order, no re-ranking. -/
theorem claim_C7 (w s : Option FeatureCollection) (q : String) :
    (customSearchResults w s q).length ≤ 10 ∧
    (q.length ≠ 0 →
      customSearchResults w s q
        = ((wardSearchItems w).filter (fun item =>
              jsIncludesStr (jsToLower item.name) (jsToLower q))
            ++ (schoolSearchItems s).filter (fun item =>
              jsIncludesStr (jsToLower item.name) (jsToLower q))).take 10) := by
  constructor
  · by_cases hq : q.length = 0
    · simp [customSearchResults, runSearchQuery, hq]
    · simp only [customSearchResults, runSearchQuery, if_neg hq,
        List.length_take]
      exact min_le_left _ _
  · intro hq
    simp only [customSearchResults, runSearchQuery, if_neg hq, searchableItems,
      List.filter_append]

/-- Witness for C7: a concrete school dataset and the query "sc". -/
theorem claim_C7_witness :
    (("sc".length ≠ 0) ∧
      customSearchResults none
        (some { features := [{ geometryType := some "Point",
                               coords := some [77, 13],
                               propName := some "ABC School" }] }) "sc"
        = ((wardSearchItems none).filter (fun item =>
              jsIncludesStr (jsToLower item.name) (jsToLower "sc"))
            ++ (schoolSearchItems (some { features :=
                  [{ geometryType := some "Point", coords := some [77, 13],
                     propName := some "ABC School" }] })).filter (fun item =>
              jsIncludesStr (jsToLower item.name) (jsToLower "sc"))).take 10) :=
  ⟨by decide, (claim_C7 none (some { features :=
      [{ geometryType := some "Point", coords := some [77, 13],
         propName := some "ABC School" }] }) "sc").2 (by decide)⟩

/-- C8. Bookmark round-trip: saving the current view under a non-blank
name, persisting the bookmark list to the key-value store and loading
it back reproduces the list with the new entry carrying exactly the
trimmed name, the center and the zoom that were saved. -/
theorem claim_C8 (store : LocalStorage) (nameInput : String) (c : ℚ × ℚ)
    (z now : ℚ) (prev : List Bookmark)
    (h : (jsTrim nameInput).isEmpty = false) :
    loadStoredBookmarks
      (persistBookmarks store (saveCurrentViewAsBookmark nameInput c z now prev))
      = prev
        ++ [{ id := now, name := jsTrim nameInput, center := c, zoom := z }] := by
  have hdec := decodeBookmarkList_encode
      (prev ++ [{ id := now, name := jsTrim nameInput, center := c, zoom := z }])
  rw [List.map_append, List.map_singleton] at hdec
  simp [loadStoredBookmarks, persistBookmarks, setItem, getItem, jsonField,
    decodeBookmarks, encodeBookmarks, saveCurrentViewAsBookmark, h, hdec]

/-- Witness for C8: saving "  Home view " at center (12.9716, 77.5946),
zoom 12 into an empty store and reloading reproduces the entry with the
trimmed name and identical center and zoom. -/
theorem claim_C8_witness :
    ((jsTrim "  Home view ").isEmpty = false) ∧
    loadStoredBookmarks
      (persistBookmarks []
        (saveCurrentViewAsBookmark "  Home view "
          (12.9716, 77.5946) 12 1717171717171 []))
      = [] ++ [{ id := 1717171717171, name := jsTrim "  Home view ",
                 center := (12.9716, 77.5946), zoom := 12 }] :=
  ⟨by decide,
    claim_C8 [] "  Home view " (12.9716, 77.5946) 12 1717171717171 []
      (by decide)⟩

/-- C9. The visibility-toggle guard is not total: for a school Point
feature that was rendered (so its `__key` is the numeric index assigned
during rendering), `toggleLayer("schools")` with that feature selected
evaluates `__key?.startsWith('tree-')` on a number and throws a
`TypeError` instead of clearing the selection. -/
theorem claim_C9 (features : List Feature) (i : Nat) (f0 f : Feature)
    (vis : LayersVisibility)
    (h0 : features.get? i = some f0) (hv : validRenderPoint f0 = true)
    (hf : (renderSchoolLayer features).get? i = some f) :
    toggleLayer "schools"
      { layersVisibility := vis, openPopupFeature := some f }
      = .error .typeError := by
  rw [renderSchoolLayer_get?, h0] at hf
  simp only [Option.map_some', hv, if_true, Option.some_inj] at hf
  subst hf
  have hg := validRenderPoint_geometry hv
  simp [toggleLayer, clearGuard, keyStartsWithTree, hg]

/-- Witness for C9: a one-feature school dataset; after rendering, the
selected feature carries `__key = 0` and the toggle throws. -/
theorem claim_C9_witness :
    (([({ geometryType := some "Point", coords := some [77, 13],
          propName := some "ABC School" } : Feature)].get? 0
        = some { geometryType := some "Point", coords := some [77, 13],
                 propName := some "ABC School" }) ∧
      validRenderPoint { geometryType := some "Point", coords := some [77, 13],
                         propName := some "ABC School" } = true ∧
      toggleLayer "schools"
        { layersVisibility := initialLayersVisibility,
          openPopupFeature := some
            { geometryType := some "Point", coords := some [77, 13],
              propName := some "ABC School", key := some (JsKey.num 0) } }
        = .error .typeError) :=
  ⟨rfl, by decide,
    claim_C9 [{ geometryType := some "Point", coords := some [77, 13],
                propName := some "ABC School" }] 0
      { geometryType := some "Point", coords := some [77, 13],
        propName := some "ABC School" }
      { geometryType := some "Point", coords := some [77, 13],
        propName := some "ABC School", key := some (JsKey.num 0) }
      initialLayersVisibility rfl (by decide) rfl⟩

/-- C10. Rendering the school layer mutates the raw dataset: the Point
feature at index `i` of `schoolData.features` gets `__key = i` written
onto the raw feature object; and because search descriptors alias raw
features by reference rather than copying them, resolving any
descriptor that references that feature after rendering observes the
mutated feature. -/
theorem claim_C10 (features : List Feature) (i : Nat) (f : Feature)
    (hget : features.get? i = some f) (hvalid : validRenderPoint f = true) :
    (renderSchoolLayer features).get? i
      = some { f with key := some (.num i) } ∧
    ∀ item ∈ schoolSearchItems (some { features := features }),
      item.featureIdx = i →
        resolveItem (renderSchoolLayer features) item
          = some { f with key := some (.num i) } := by
  have h1 : (renderSchoolLayer features).get? i
      = some { f with key := some (.num i) } := by
    rw [renderSchoolLayer_get?, hget]
    simp [hvalid]
  refine ⟨h1, fun item _ hidx => ?_⟩
  unfold resolveItem
  rw [hidx]
  exact h1

/-- Witness for C10: rendering a one-feature school dataset writes
`__key = 0` into the raw feature. -/
theorem claim_C10_witness :
    (([({ geometryType := some "Point", coords := some [77, 13],
          tagsName := some "DEF School" } : Feature)].get? 0
        = some { geometryType := some "Point", coords := some [77, 13],
                 tagsName := some "DEF School" }) ∧
      validRenderPoint { geometryType := some "Point", coords := some [77, 13],
                         tagsName := some "DEF School" } = true ∧
      (renderSchoolLayer [{ geometryType := some "Point", coords := some [77, 13],
                            tagsName := some "DEF School" }]).get? 0
        = some { geometryType := some "Point", coords := some [77, 13],
                 tagsName := some "DEF School", key := some (JsKey.num 0) }) :=
  ⟨rfl, by decide,
    (claim_C10 [{ geometryType := some "Point", coords := some [77, 13],
                  tagsName := some "DEF School" }] 0
      { geometryType := some "Point", coords := some [77, 13],
        tagsName := some "DEF School" } rfl (by decide)).1⟩

end GeoInsights
